import Mathlib

/-!
Shallow embedding of `unreal_engine/cv_capture.py`: an AirSim computer-vision
capture script that repositions a vehicle, captures scene/segmentation images,
draws bounding-box overlays for filtered detections, and writes YOLO-style
label files.  Coordinates are modelled as exact rationals (the Python floats
involved in the claims are powers-of-two divisions of integers, hence exact),
the filesystem as a partial map from paths to file contents, and the simulator
as an oracle supplying per-iteration image responses and detections.
-/

namespace CvCapture

/-! ### Basic geometry and detection data (AirSim client types) -/

/-- A 2-D pixel coordinate (AirSim `Vector2r`, fields `x_val`/`y_val`). -/
structure Vector2r where
  x_val : ℚ
  y_val : ℚ
  deriving DecidableEq, Repr

/-- A 2-D bounding box with min/max corners (AirSim `Box2D`). -/
structure Box2D where
  min : Vector2r
  max : Vector2r
  deriving DecidableEq, Repr

/-- One object detection: a name and a 2-D box (AirSim `DetectionInfo`). -/
structure DetectionInfo where
  name : String
  box2D : Box2D
  deriving DecidableEq, Repr

/-! ### Python semantics helpers -/

/-- `containsAux pat s`: does the character list `s` have `pat` as a
contiguous sublist?  Mirrors Python's `pat in s` on strings. -/
def containsAux (pat : List Char) : List Char → Bool
  | [] => pat.isEmpty
  | c :: t => pat.isPrefixOf (c :: t) || containsAux pat t

/-- Python's substring test `pat in s` (case-sensitive). -/
def strContains (s pat : String) : Bool :=
  containsAux pat.toList s.toList

/-- Python's `round` to an integer: round half to even on the exact value.
The floats fed to `round` in this script are exact binary fractions, so the
rational model is faithful. -/
def pyRoundInt (q : ℚ) : ℤ :=
  let f := ⌊q⌋
  if q - f < 1 / 2 then f
  else if q - f > 1 / 2 then f + 1
  else if f % 2 = 0 then f else f + 1

/-- Python's `round(q, 3)`, returned as an integer count of thousandths. -/
def round3 (q : ℚ) : ℤ := pyRoundInt (q * 1000)

/-- Python's `round(q, 3)` as a value, the way the spec reads it. -/
def round3q (q : ℚ) : ℚ := (round3 q : ℚ) / 1000

/-- Render the 3-digit fractional part `fp < 1000` the way Python's float
`repr` prints it: trailing zeros stripped, at least one digit kept. -/
def frac3 (fp : ℕ) : String :=
  let d1 := fp / 100
  let d2 := fp / 10 % 10
  let d3 := fp % 10
  if d3 ≠ 0 then toString d1 ++ toString d2 ++ toString d3
  else if d2 ≠ 0 then toString d1 ++ toString d2
  else toString d1

/-- Render `k` thousandths the way a Python f-string prints the float
`round(x, 3)` whose value is `k/1000` (e.g. `146 ↦ "0.146"`, `250 ↦ "0.25"`,
`0 ↦ "0.0"`). -/
def fmtRound3 (k : ℤ) : String :=
  let sign := if k < 0 then "-" else ""
  let a := k.natAbs
  sign ++ toString (a / 1000) ++ "." ++ frac3 (a % 1000)

/-! ### Label lines (`save_bounding_boxes`, lines 119–129) -/

/-- One line of the label file for one listed box, exactly as the source
computes and formats it:
`f'1 {x1} {y1} {x2} {y2}\n'` with
`x1 = round((min.x+max.x)/2/1024, 3)` etc. -/
def labelLine (box : DetectionInfo) : String :=
  let x1 := round3 ((box.box2D.min.x_val + box.box2D.max.x_val) / 2 / 1024)
  let y1 := round3 ((box.box2D.min.y_val + box.box2D.max.y_val) / 2 / 1024)
  let x2 := round3 ((box.box2D.max.x_val - box.box2D.min.x_val) / 1024)
  let y2 := round3 ((box.box2D.max.y_val - box.box2D.min.y_val) / 1024)
  "1 " ++ fmtRound3 x1 ++ " " ++ fmtRound3 y1 ++ " "
    ++ fmtRound3 x2 ++ " " ++ fmtRound3 y2 ++ "\n"

/-- Full text of the label file: the lines of all listed boxes, in order. -/
def labelText (listBoxes : List DetectionInfo) : String :=
  String.join (listBoxes.map labelLine)

/-- The four label values as the spec states them: centre-x, centre-y, width,
height, each divided by 1024 and rounded to 3 decimal places. -/
def specLabelValues (x1 y1 x2 y2 : ℚ) : ℚ × ℚ × ℚ × ℚ :=
  (round3q ((x1 + x2) / 2 / 1024), round3q ((y1 + y2) / 2 / 1024),
   round3q ((x2 - x1) / 1024), round3q ((y2 - y1) / 1024))

/-- Render a value that is a whole number of thousandths the way the
f-string prints it. -/
def fmtThousandthsVal (q : ℚ) : String := fmtRound3 (q * 1000).num

/-! ### Filtering (`annotate_and_save_image`, lines 96–116)

The nested loop `for box in dets: for mesh in meshNames: if mesh in box.name:`
appends `box` once per mesh name that occurs in its name. -/

/-- The `listBoxes` accumulated by `annotate_and_save_image`: one occurrence
of `box` for every `mesh ∈ meshNames` with `mesh in box.name`, in detection
order (and filter order within one detection). -/
def computeListBoxes (dets : List DetectionInfo) (meshNames : List String) :
    List DetectionInfo :=
  dets.flatMap fun box =>
    (meshNames.filter fun mesh => strContains box.name mesh).map fun _ => box

/-! ### Files and the filesystem -/

/-- A drawing operation performed on the annotated image by `ImageDraw`. -/
inductive DrawOp where
  /-- `draw.rectangle([(x1,y1),(x2,y2)], outline=...)`. -/
  | rect (x1 y1 x2 y2 : ℚ) (outline : String)
  /-- `draw.text((x,y), s)`. -/
  | txt (x y : ℚ) (s : String)
  deriving DecidableEq, Repr

/-- Contents of a file written by the script. -/
inductive FileContent where
  /-- `airsim.write_pfm`: lossless floating-point image data. -/
  | pfm (data : List ℚ)
  /-- `airsim.write_png` of a decoded height×width×3 uint8 raster. -/
  | png (raster : List ℕ) (height width : ℕ)
  /-- `im.save` of the opened raster with the drawing operations applied. -/
  | annot (raster : List ℕ) (height width : ℕ) (draws : List DrawOp)
  /-- A plain-text file. -/
  | text (s : String)
  deriving DecidableEq, Repr

/-- The filesystem: a partial map from paths to file contents. -/
def FS : Type := String → Option FileContent

/-- Writing (mode `'w'`) truncates: the new content fully replaces any
previous file at the same path. -/
def fsWrite (fs : FS) (p : String) (c : FileContent) : FS :=
  fun q => if q = p then some c else fs q

/-- Apply an ordered list of writes to the filesystem. -/
def applyWrites (fs : FS) (ws : List (String × FileContent)) : FS :=
  ws.foldl (fun f w => fsWrite f w.1 w.2) fs

/-- `os.path.join` for the relative components this script uses. -/
def os_path_join (a b : String) : String := a ++ "/" ++ b

/-- `os.path.normpath`; the paths built here are already normalized. -/
def os_path_normpath (p : String) : String := p

/-! ### AirSim image requests and responses -/

/-- The image types this script uses (`airsim.ImageType`). -/
inductive ImageType where
  | Scene
  | Segmentation
  deriving DecidableEq, Repr

/-- `airsim.ImageRequest(camera_name, image_type, pixels_as_float, compress)`. -/
structure ImageRequest where
  camera_name : String
  image_type : ImageType
  pixels_as_float : Bool
  compress : Bool
  deriving DecidableEq, Repr

/-- The fields of `airsim.ImageResponse` that the script reads. -/
structure ImageResponse where
  pixels_as_float : Bool
  image_data_float : List ℚ
  image_data_uint8 : List ℕ
  image_type : ImageType
  height : ℕ
  width : ℕ
  deriving DecidableEq, Repr

/-- `np.frombuffer(r.image_data_uint8, dtype=np.uint8).reshape(h, w, 3)`:
succeeds exactly when the buffer holds `height * width * 3` bytes, else
raises. -/
def decode_rgb (r : ImageResponse) : Option (List ℕ) :=
  if r.image_data_uint8.length = r.height * r.width * 3 then
    some r.image_data_uint8
  else none

/-! ### Persistence (`save_images_and_annotations`, lines 77–93) -/

/-- The single write performed for one image response: float responses go to
`image_file + '.pfm'`, byte responses are decoded and written to
`image_file + '_orig.jpg'` (Scene) or `image_file + '_seg.jpg'` (other);
a failed decode is an error. -/
def response_write (image_file : String) (r : ImageResponse) :
    Except String (String × FileContent) :=
  if r.pixels_as_float then
    Except.ok (image_file ++ ".pfm", FileContent.pfm r.image_data_float)
  else
    match decode_rgb r with
    | some raster =>
        let image_type_str :=
          if r.image_type = ImageType.Scene then "_orig.jpg" else "_seg.jpg"
        Except.ok (image_file ++ image_type_str,
          FileContent.png raster r.height r.width)
    | none => Except.error "cannot reshape array"

/-- Process the responses in order; an error stops the loop but the writes
already performed stay performed. -/
def image_writes (image_file : String) :
    List ImageResponse → List (String × FileContent) × Option String
  | [] => ([], none)
  | r :: rs =>
      match response_write image_file r with
      | Except.ok w =>
          let rest := image_writes image_file rs
          (w :: rest.1, rest.2)
      | Except.error e => ([], some e)

/-- The drawing operations produced by the filter loop of
`annotate_and_save_image`: per listed box, a red rectangle at its corners and
its name at the top-left corner. -/
def drawOps (listBoxes : List DetectionInfo) : List DrawOp :=
  listBoxes.flatMap fun box =>
    [DrawOp.rect box.box2D.min.x_val box.box2D.min.y_val
        box.box2D.max.x_val box.box2D.max.y_val "red",
     DrawOp.txt box.box2D.min.x_val box.box2D.min.y_val box.name]

/-- `save_bounding_boxes` (lines 119–129): the single write of the label
file, opened with mode `'w'` (truncating). -/
def save_bounding_boxes (image_file : String) (listBoxes : List DetectionInfo) :
    String × FileContent :=
  (image_file ++ ".txt", FileContent.text (labelText listBoxes))

/-- `annotate_and_save_image` (lines 96–116): open the just-written original
image, draw the filtered boxes, save the `_annot` image, then write the label
file.  Failure to open the original image is an error (no writes). -/
def annotate_and_save_image (fs : FS) (image_file : String)
    (dets : List DetectionInfo) (meshNames : List String) :
    List (String × FileContent) × Option String :=
  match fs (image_file ++ "_orig.jpg") with
  | some (FileContent.png raster h w) =>
      let listBoxes := computeListBoxes dets meshNames
      ([(image_file ++ "_annot.jpg",
          FileContent.annot raster h w (drawOps listBoxes)),
        save_bounding_boxes image_file listBoxes], none)
  | _ => ([], some "cannot identify image file")

/-- `os.path.normpath(os.path.join(tmp_dir, str(0), f"{iteration}_0"))`:
the common filename stem of one iteration's artifacts. -/
def iter_image_file (tmp_dir : String) (iteration : ℕ) : String :=
  os_path_normpath
    (os_path_join (os_path_join tmp_dir (toString 0)) (toString iteration ++ "_0"))

/-- `save_images_and_annotations` (lines 77–93): writes performed and the
error, if any, for one iteration's persistence.  The writes are ordered:
image writes first, then the annotated image, then the label file. -/
def save_images_and_annotations (fs : FS) (responses : List ImageResponse)
    (dets : List DetectionInfo) (tmp_dir : String) (meshNames : List String)
    (iteration : ℕ) : List (String × FileContent) × Option String :=
  let image_file := iter_image_file tmp_dir iteration
  let imgs := image_writes image_file responses
  match imgs.2 with
  | some e => (imgs.1, some e)
  | none =>
      let fs2 := applyWrites fs imgs.1
      let rest := annotate_and_save_image fs2 image_file dets meshNames
      (imgs.1 ++ rest.1, rest.2)

/-! ### The simulator session as an action trace -/

/-- The semantic content of the regex patterns passed to
`simSetSegmentationObjectID`.  `matchAll` is the pattern `[\w]*`;
`containsSub n` is `[\w]* + n + [\w]*`, which matches exactly the
(word-character) object names containing `n` as a substring. -/
inductive SegPattern where
  | matchAll
  | containsSub (n : String)
  deriving DecidableEq, Repr

/-- Whether an object name matches a segmentation pattern. -/
def SegPattern.matchesName : SegPattern → String → Bool
  | SegPattern.matchAll, _ => true
  | SegPattern.containsSub n, o => strContains o n

/-- `airsim.Vector3r`. -/
structure Vector3r where
  x_val : ℚ
  y_val : ℚ
  z_val : ℚ
  deriving DecidableEq, Repr

/-- `airsim.to_quaternion(pitch, roll, yaw)` converts Euler angles to a
quaternion; the angles are kept, all-zero angles being the identity
orientation. -/
structure EulerQuaternion where
  pitch : ℚ
  roll : ℚ
  yaw : ℚ
  deriving DecidableEq, Repr

/-- `airsim.to_quaternion`. -/
def to_quaternion (pitch roll yaw : ℚ) : EulerQuaternion := ⟨pitch, roll, yaw⟩

/-- `airsim.Pose(position, orientation)`. -/
structure Pose where
  position : Vector3r
  orientation : EulerQuaternion
  deriving DecidableEq, Repr

/-- One observable action of the script: a simulator call, a sleep, or a
file write. -/
inductive SimAction where
  | setVehiclePose (pose : Pose) (ignore_collision : Bool)
  | sleep (seconds : ℚ)
  | simPause (is_paused : Bool)
  | getImages (requests : List ImageRequest)
  | getDetections (camera : String) (image_type : ImageType)
  | setSegmentationId (pat : SegPattern) (object_id : ℕ) (is_name_regex : Bool)
  | writeFile (path : String) (content : FileContent)
  deriving DecidableEq, Repr

/-- The two image requests issued each iteration (lines 63–66): camera "3",
Scene and Segmentation, `pixels_as_float=False`, `compress=False`. -/
def image_requests : List ImageRequest :=
  [⟨"3", ImageType.Scene, false, false⟩,
   ⟨"3", ImageType.Segmentation, false, false⟩]

/-- The simulator side, as an oracle: what `simGetImages` and
`simGetDetections` return at each iteration. -/
structure SimOracle where
  images : ℕ → List ImageRequest → List ImageResponse
  detections : ℕ → String → ImageType → List DetectionInfo

/-- One iteration of the loop body of `capture_images` (lines 55–74):
set the pose, sleep 0.1 s, pause, request images and detections, persist,
and resume — the resume is skipped if persistence raised. -/
def capture_iteration (o : SimOracle) (tmp_dir : String)
    (meshNames : List String) (fs : FS) (x : ℕ) :
    FS × List SimAction × Option String :=
  let pose : Pose := ⟨⟨(x : ℚ) + 90, -20, -30⟩, to_quaternion 0 0 0⟩
  let responses := o.images x image_requests
  let dets := o.detections x "3" ImageType.Scene
  let pe := save_images_and_annotations fs responses dets tmp_dir meshNames x
  let acts :=
    [SimAction.setVehiclePose pose true,
     SimAction.sleep (1 / 10),
     SimAction.simPause true,
     SimAction.getImages image_requests,
     SimAction.getDetections "3" ImageType.Scene]
    ++ pe.1.map (fun w => SimAction.writeFile w.1 w.2)
    ++ (match pe.2 with
        | none => [SimAction.simPause false]
        | some _ => [])
  (applyWrites fs pe.1, acts, pe.2)

/-- Run the loop body over the given iteration indices, stopping at the
first error (an uncaught exception aborts the loop). -/
def run_iters (o : SimOracle) (tmp_dir : String) (meshNames : List String) :
    List ℕ → FS → FS × List SimAction × Option String
  | [], fs => (fs, [], none)
  | x :: xs, fs =>
      let step := capture_iteration o tmp_dir meshNames fs x
      match step.2.2 with
      | some e => (step.1, step.2.1, some e)
      | none =>
          let rest := run_iters o tmp_dir meshNames xs step.1
          (rest.1, step.2.1 ++ rest.2.1, rest.2.2)

/-- `capture_images` (lines 51–74) with `num_iterations = K`: iterations
`0, 1, …, K-1` in increasing order. -/
def capture_images (o : SimOracle) (tmp_dir : String)
    (meshNames : List String) (K : ℕ) (fs : FS) :
    FS × List SimAction × Option String :=
  run_iters o tmp_dir meshNames (List.range K) fs

/-! ### Segmentation labeling (`reset_segmentation_ids`, lines 36–48) -/

/-- The ID-assignment calls for the names starting at enumeration index
`idx`: the name at index `idx` gets ID `(idx + 1) % 256` via a
contains-substring pattern. -/
def seg_assign_actions : ℕ → List String → List SimAction
  | _, [] => []
  | idx, n :: rest =>
      SimAction.setSegmentationId (SegPattern.containsSub n) ((idx + 1) % 256) true
        :: seg_assign_actions (idx + 1) rest

/-- `reset_segmentation_ids` (lines 36–48): reset all IDs to 0 with a
match-all pattern, sleep 1 s, then assign `(idx+1) % 256` to each listed
name in order. -/
def reset_segmentation_ids (object_name_list : List String) : List SimAction :=
  SimAction.setSegmentationId SegPattern.matchAll 0 true
    :: SimAction.sleep 1
    :: seg_assign_actions 0 object_name_list

/-- Simulator-side effect of one action on the map from object names to
segmentation IDs. -/
def applySegAction (ids : String → ℕ) : SimAction → (String → ℕ)
  | SimAction.setSegmentationId pat object_id _ =>
      fun o => if pat.matchesName o then object_id else ids o
  | _ => ids

/-- The object-name → segmentation-ID map after a list of actions. -/
def segIdsAfter (ids0 : String → ℕ) (acts : List SimAction) : String → ℕ :=
  acts.foldl applySegAction ids0

/-! ### Output directories (`create_output_directories`, lines 28–33) -/

/-- `os.makedirs(p, exist_ok=True)` on the set of existing directories:
total (no error when the directory pre-exists). -/
def makedirs (dirs : String → Bool) (p : String) : String → Bool :=
  fun q => if q = p then true else dirs q

/-- `create_output_directories` (lines 28–33): ensure the numbered
subdirectories `base_dir/0 … base_dir/(num_dirs-1)` exist. -/
def create_output_directories (dirs : String → Bool) (base_dir : String)
    (num_dirs : ℕ) : String → Bool :=
  (List.range num_dirs).foldl
    (fun d n => makedirs d (os_path_join base_dir (toString n))) dirs

/-! ## Helper lemmas -/

/-- Unfolding of `labelLine` with the projections reduced. -/
theorem labelLine_eq (n : String) (b : Box2D) :
    labelLine ⟨n, b⟩ =
      "1 " ++ fmtRound3 (round3 ((b.min.x_val + b.max.x_val) / 2 / 1024)) ++ " "
        ++ fmtRound3 (round3 ((b.min.y_val + b.max.y_val) / 2 / 1024)) ++ " "
        ++ fmtRound3 (round3 ((b.max.x_val - b.min.x_val) / 1024)) ++ " "
        ++ fmtRound3 (round3 ((b.max.y_val - b.min.y_val) / 1024)) ++ "\n" := rfl

theorem fmtThousandthsVal_round3q (v : ℚ) :
    fmtThousandthsVal (round3q v) = fmtRound3 (round3 v) := by
  unfold fmtThousandthsVal round3q
  rw [div_mul_cancel₀ _ (by norm_num : (1000 : ℚ) ≠ 0), Rat.num_intCast]

/-- The spec's example detection: name `"Character_03"`, box corners
(100,100)-(200,300). -/
def exampleDet : DetectionInfo := ⟨"Character_03", ⟨⟨100, 100⟩, ⟨200, 300⟩⟩⟩

theorem labelLine_example :
    labelLine exampleDet = "1 0.146 0.195 0.098 0.195\n" := by
  have h1 : round3 (((100 : ℚ) + 200) / 2 / 1024) = 146 := by
    unfold round3 pyRoundInt; norm_num
  have h2 : round3 (((100 : ℚ) + 300) / 2 / 1024) = 195 := by
    unfold round3 pyRoundInt; norm_num
  have h3 : round3 (((200 : ℚ) - 100) / 1024) = 98 := by
    unfold round3 pyRoundInt; norm_num
  have h4 : round3 (((300 : ℚ) - 100) / 1024) = 195 := by
    unfold round3 pyRoundInt; norm_num
  calc labelLine exampleDet
      = "1 " ++ fmtRound3 (146 : ℤ) ++ " " ++ fmtRound3 (195 : ℤ) ++ " "
          ++ fmtRound3 (98 : ℤ) ++ " " ++ fmtRound3 (195 : ℤ) ++ "\n" := by
        show "1 " ++ fmtRound3 (round3 (((100 : ℚ) + 200) / 2 / 1024)) ++ " "
            ++ fmtRound3 (round3 (((100 : ℚ) + 300) / 2 / 1024)) ++ " "
            ++ fmtRound3 (round3 (((200 : ℚ) - 100) / 1024)) ++ " "
            ++ fmtRound3 (round3 (((300 : ℚ) - 100) / 1024)) ++ "\n" = _
        rw [h1, h2, h3, h4]
    _ = "1 0.146 0.195 0.098 0.195\n" := by decide

/-! ## Claim C1 -/

/-- **C1, counterexample.**  The claim's formula is the code's, but the
example line it derives is wrong: for the detection named `"Character_03"`
with box (100,100)-(200,300) the code writes `1 0.146 0.195 0.098 0.195`
(centre-x = 150/1024 = 0.146484375, which rounds to 0.146), not the claimed
`1 0.147 0.195 0.098 0.195`.  The detection does qualify under the filter
list `["Character"]`. -/
theorem C1_example_line_counterexample :
    labelLine exampleDet = "1 0.146 0.195 0.098 0.195\n"
    ∧ labelLine exampleDet ≠ "1 0.147 0.195 0.098 0.195\n"
    ∧ computeListBoxes [exampleDet] ["Character"] = [exampleDet] := by
  refine ⟨labelLine_example, ?_, by decide⟩
  rw [labelLine_example]
  decide

/-- **C1, amended.**  Bounding-box normalization is a pure function of the
box corners: the label line ignores the detection's name, and its four
numbers are exactly the renderings of
`(round((x1+x2)/2/1024,3), round((y1+y2)/2/1024,3), round((x2-x1)/1024,3),
round((y2-y1)/1024,3))`; for the spec's example scenario the detection named
`"Character_03"` with box (100,100)-(200,300) yields the label line
`1 0.146 0.195 0.098 0.195`. -/
theorem C1_label_normalization :
    (∀ n₁ n₂ b, labelLine ⟨n₁, b⟩ = labelLine ⟨n₂, b⟩)
    ∧ (∀ n (b : Box2D), labelLine ⟨n, b⟩ =
        "1 "
        ++ fmtThousandthsVal
            (specLabelValues b.min.x_val b.min.y_val b.max.x_val b.max.y_val).1
        ++ " "
        ++ fmtThousandthsVal
            (specLabelValues b.min.x_val b.min.y_val b.max.x_val b.max.y_val).2.1
        ++ " "
        ++ fmtThousandthsVal
            (specLabelValues b.min.x_val b.min.y_val b.max.x_val b.max.y_val).2.2.1
        ++ " "
        ++ fmtThousandthsVal
            (specLabelValues b.min.x_val b.min.y_val b.max.x_val b.max.y_val).2.2.2
        ++ "\n")
    ∧ labelLine exampleDet = "1 0.146 0.195 0.098 0.195\n" := by
  refine ⟨fun n₁ n₂ b => rfl, fun n b => ?_, labelLine_example⟩
  rw [labelLine_eq]
  simp only [specLabelValues]
  rw [fmtThousandthsVal_round3q, fmtThousandthsVal_round3q,
    fmtThousandthsVal_round3q, fmtThousandthsVal_round3q]

/-! ## Claim C2 -/

theorem mem_computeListBoxes (dets : List DetectionInfo) (meshNames : List String)
    (b : DetectionInfo) :
    b ∈ computeListBoxes dets meshNames ↔
      b ∈ dets ∧ ∃ m ∈ meshNames, strContains b.name m = true := by
  simp only [computeListBoxes, List.mem_flatMap, List.mem_map, List.mem_filter]
  constructor
  · rintro ⟨a, ha, m, ⟨hm, hc⟩, rfl⟩
    exact ⟨ha, m, hm, hc⟩
  · rintro ⟨hb, m, hm, hc⟩
    exact ⟨b, hb, m, ⟨hm, hc⟩, rfl⟩

theorem computeListBoxes_eq_flatMap_replicate (dets : List DetectionInfo)
    (meshNames : List String) :
    computeListBoxes dets meshNames =
      dets.flatMap fun d =>
        List.replicate (meshNames.filter fun m => strContains d.name m).length d := by
  unfold computeListBoxes
  congr 1
  funext d
  exact List.map_const' _ d

/-- A filesystem holding just the original image for stem `t/0/0_0`. -/
def exFS : FS :=
  fun q => if q = "t/0/0_0_orig.jpg" then some (FileContent.png [] 0 0) else none

/-- **C2, amended.**  A detection is drawn on the annotated image and written
to the label file iff its name contains at least one configured filter
substring (case-sensitive substring match); but a qualifying detection
contributes one label line (and one drawn box) **per matching filter
substring** — exactly one only when exactly one substring matches — in the
order the detections were yielded (and filter order within one
detection). -/
theorem C2_filter_semantics (fs : FS) (image_file : String)
    (dets : List DetectionInfo) (meshNames : List String)
    (raster : List ℕ) (h w : ℕ)
    (horig : fs (image_file ++ "_orig.jpg") = some (FileContent.png raster h w)) :
    annotate_and_save_image fs image_file dets meshNames =
      ([(image_file ++ "_annot.jpg",
          FileContent.annot raster h w (drawOps (computeListBoxes dets meshNames))),
        (image_file ++ ".txt",
          FileContent.text (labelText (computeListBoxes dets meshNames)))], none)
    ∧ (∀ b, b ∈ computeListBoxes dets meshNames ↔
        b ∈ dets ∧ ∃ m ∈ meshNames, strContains b.name m = true)
    ∧ computeListBoxes dets meshNames =
        dets.flatMap fun d =>
          List.replicate (meshNames.filter fun m => strContains d.name m).length d := by
  refine ⟨?_, fun b => mem_computeListBoxes dets meshNames b,
    computeListBoxes_eq_flatMap_replicate dets meshNames⟩
  unfold annotate_and_save_image save_bounding_boxes
  rw [horig]

theorem C2_filter_semantics_witness :
    annotate_and_save_image exFS "t/0/0_0" [exampleDet] ["Character"] =
      ([("t/0/0_0" ++ "_annot.jpg",
          FileContent.annot [] 0 0
            (drawOps (computeListBoxes [exampleDet] ["Character"]))),
        ("t/0/0_0" ++ ".txt",
          FileContent.text (labelText (computeListBoxes [exampleDet] ["Character"])))],
       none) :=
  (C2_filter_semantics exFS "t/0/0_0" [exampleDet] ["Character"] [] 0 0 (by decide)).1

/-- A detection whose name contains two of the configured filter
substrings. -/
def dupDet : DetectionInfo := ⟨"ab", ⟨⟨0, 0⟩, ⟨0, 0⟩⟩⟩

/-- **C2, counterexample.**  With filter list `["a", "b"]`, the single
detection named `"ab"` qualifies once but is appended once per matching
substring, so the label file receives two lines for it — refuting "each
qualifying detection contributes exactly one output line". -/
theorem C2_duplicate_line_counterexample :
    computeListBoxes [dupDet] ["a", "b"] = [dupDet, dupDet]
    ∧ (List.filter (fun b => List.any ["a", "b"] fun m => strContains b.name m)
        [dupDet]).length = 1
    ∧ save_bounding_boxes "t/0/0_0" (computeListBoxes [dupDet] ["a", "b"]) =
        ("t/0/0_0" ++ ".txt", FileContent.text (labelText [dupDet, dupDet])) := by
  have h : computeListBoxes [dupDet] ["a", "b"] = [dupDet, dupDet] := by decide
  exact ⟨h, by decide, by rw [h]; rfl⟩

/-! ## Claim C3 -/

/-- A floating-point Scene response (`pixels_as_float` set). -/
def floatSceneResp : ImageResponse := ⟨true, [], [], ImageType.Scene, 0, 0⟩

/-- A normal (byte) Segmentation response with an empty 0×0 raster. -/
def segResp : ImageResponse := ⟨false, [], [], ImageType.Segmentation, 0, 0⟩

/-- A normal (byte) Scene response with an empty 0×0 raster. -/
def sceneResp : ImageResponse := ⟨false, [], [], ImageType.Scene, 0, 0⟩

/-- **C3, counterexample.**  When the float flag is set, the image is written
to `{iter}_0.pfm` — the per-image `_orig`/`_seg` suffix is dropped, so the
floating-point scene image does **not** go to `{iter}_0_orig.pfm` as
claimed.  (The subsequent annotation step then fails to find
`{iter}_0_orig.jpg`, so the iteration errors after the `.pfm` write.) -/
theorem C3_pfm_naming_counterexample :
    (save_images_and_annotations (fun _ => none) [floatSceneResp] [] "t" [] 0).1.map
        Prod.fst = ["t/0/0_0.pfm"]
    ∧ ¬ ("t/0/0_0_orig.pfm" ∈
        (save_images_and_annotations (fun _ => none) [floatSceneResp] [] "t" [] 0).1.map
          Prod.fst)
    ∧ (save_images_and_annotations (fun _ => none) [floatSceneResp] [] "t" [] 0).2 ≠
        none := by
  refine ⟨by decide, by decide, by decide⟩

/-- **C3, amended.**  For every image response: if the float flag is set the
image is written in the lossless floating-point `.pfm` format at the bare
stem `{iter}_0.pfm` (the per-image `_orig`/`_seg` suffix is dropped);
otherwise it is decoded as a 3-channel 8-bit raster and written as a
compressed raster image, the scene image with the `_orig` suffix and the
segmentation image with the `_seg` suffix. -/
theorem C3_image_write_naming (image_file : String) (r : ImageResponse) :
    (r.pixels_as_float = true →
      response_write image_file r =
        Except.ok (image_file ++ ".pfm", FileContent.pfm r.image_data_float))
    ∧ (r.pixels_as_float = false →
        r.image_data_uint8.length = r.height * r.width * 3 →
        response_write image_file r =
          Except.ok
            (image_file ++
              (if r.image_type = ImageType.Scene then "_orig.jpg" else "_seg.jpg"),
             FileContent.png r.image_data_uint8 r.height r.width)) := by
  constructor
  · intro hf
    unfold response_write
    rw [hf]
    rfl
  · intro hf hlen
    unfold response_write decode_rgb
    rw [hf]
    simp [hlen]

theorem C3_image_write_naming_witness :
    response_write "t/0/0_0" floatSceneResp =
      Except.ok ("t/0/0_0" ++ ".pfm", FileContent.pfm [])
    ∧ response_write "t/0/0_0" segResp =
        Except.ok
          ("t/0/0_0" ++
            (if segResp.image_type = ImageType.Scene then "_orig.jpg" else "_seg.jpg"),
           FileContent.png [] 0 0) :=
  ⟨(C3_image_write_naming "t/0/0_0" floatSceneResp).1 rfl,
   (C3_image_write_naming "t/0/0_0" segResp).2 rfl rfl⟩

/-! ## Capture-loop infrastructure (C4, C7, C8) -/

theorem str_append_left_cancel {s a b : String} (h : s ++ a = s ++ b) : a = b := by
  have hd := congrArg String.data h
  rw [String.data_append, String.data_append] at hd
  exact String.ext (List.append_cancel_left hd)

theorem str_append_ne (s : String) {a b : String} (h : a ≠ b) : s ++ a ≠ s ++ b :=
  fun hc => h (str_append_left_cancel hc)

/-- A response that is what the loop's requests ask for: not float-encoded,
of the given image type, with a buffer that reshapes to height×width×3. -/
def goodResponse (t : ImageType) (r : ImageResponse) : Prop :=
  r.pixels_as_float = false ∧ r.image_type = t ∧
    r.image_data_uint8.length = r.height * r.width * 3

/-- The four writes of one successful iteration. -/
def good_iter_writes (tmp_dir : String) (meshNames : List String) (x : ℕ)
    (r1 r2 : ImageResponse) (dets : List DetectionInfo) :
    List (String × FileContent) :=
  [(iter_image_file tmp_dir x ++ "_orig.jpg",
      FileContent.png r1.image_data_uint8 r1.height r1.width),
   (iter_image_file tmp_dir x ++ "_seg.jpg",
      FileContent.png r2.image_data_uint8 r2.height r2.width),
   (iter_image_file tmp_dir x ++ "_annot.jpg",
      FileContent.annot r1.image_data_uint8 r1.height r1.width
        (drawOps (computeListBoxes dets meshNames))),
   (iter_image_file tmp_dir x ++ ".txt",
      FileContent.text (labelText (computeListBoxes dets meshNames)))]

/-- With a good Scene response and a good Segmentation response, persistence
performs exactly the four writes, in order, and succeeds. -/
theorem save_images_good (fs : FS) (dets : List DetectionInfo) (tmp_dir : String)
    (meshNames : List String) (x : ℕ) (r1 r2 : ImageResponse)
    (h1 : goodResponse ImageType.Scene r1)
    (h2 : goodResponse ImageType.Segmentation r2) :
    save_images_and_annotations fs [r1, r2] dets tmp_dir meshNames x =
      (good_iter_writes tmp_dir meshNames x r1 r2 dets, none) := by
  obtain ⟨hf1, ht1, hl1⟩ := h1
  obtain ⟨hf2, ht2, hl2⟩ := h2
  have hw1 : response_write (iter_image_file tmp_dir x) r1 =
      Except.ok (iter_image_file tmp_dir x ++ "_orig.jpg",
        FileContent.png r1.image_data_uint8 r1.height r1.width) := by
    unfold response_write decode_rgb
    rw [hf1, ht1]
    simp [hl1]
  have hw2 : response_write (iter_image_file tmp_dir x) r2 =
      Except.ok (iter_image_file tmp_dir x ++ "_seg.jpg",
        FileContent.png r2.image_data_uint8 r2.height r2.width) := by
    unfold response_write decode_rgb
    rw [hf2, ht2]
    simp [hl2]
  have himgs : image_writes (iter_image_file tmp_dir x) [r1, r2] =
      ([(iter_image_file tmp_dir x ++ "_orig.jpg",
          FileContent.png r1.image_data_uint8 r1.height r1.width),
        (iter_image_file tmp_dir x ++ "_seg.jpg",
          FileContent.png r2.image_data_uint8 r2.height r2.width)], none) := by
    unfold image_writes
    rw [hw1]
    unfold image_writes
    rw [hw2]
    rfl
  have hne : iter_image_file tmp_dir x ++ "_orig.jpg" ≠
      iter_image_file tmp_dir x ++ "_seg.jpg" :=
    str_append_ne _ (by decide)
  have hlook : applyWrites fs
      [(iter_image_file tmp_dir x ++ "_orig.jpg",
          FileContent.png r1.image_data_uint8 r1.height r1.width),
        (iter_image_file tmp_dir x ++ "_seg.jpg",
          FileContent.png r2.image_data_uint8 r2.height r2.width)]
      (iter_image_file tmp_dir x ++ "_orig.jpg") =
      some (FileContent.png r1.image_data_uint8 r1.height r1.width) := by
    simp [applyWrites, fsWrite, hne]
  simp only [save_images_and_annotations]
  rw [himgs]
  simp only []
  unfold annotate_and_save_image save_bounding_boxes
  rw [hlook]
  rfl

/-- The path of a `writeFile` action, `none` for the other actions. -/
def write_path : SimAction → Option String
  | SimAction.writeFile p _ => some p
  | _ => none

/-- The four artifact paths of iteration `x`: all share the stem
`{x}_0` inside the fixed subdirectory `0`. -/
def artifact_paths (tmp_dir : String) (x : ℕ) : List String :=
  [iter_image_file tmp_dir x ++ "_orig.jpg",
   iter_image_file tmp_dir x ++ "_seg.jpg",
   iter_image_file tmp_dir x ++ "_annot.jpg",
   iter_image_file tmp_dir x ++ ".txt"]

theorem filterMap_write_path_map (ws : List (String × FileContent)) :
    List.filterMap write_path (ws.map fun w => SimAction.writeFile w.1 w.2) =
      ws.map Prod.fst := by
  induction ws with
  | nil => rfl
  | cons w ws ih => simp [List.filterMap_cons, write_path, ih]

/-- An oracle every one of whose responses is good. -/
def GoodOracle (o : SimOracle) (xs : List ℕ) : Prop :=
  ∀ x ∈ xs, ∃ r1 r2, o.images x image_requests = [r1, r2] ∧
    goodResponse ImageType.Scene r1 ∧ goodResponse ImageType.Segmentation r2

/-- One good iteration: the loop body performs exactly the four writes and
ends with the resume action. -/
theorem capture_iteration_good (o : SimOracle) (tmp_dir : String)
    (meshNames : List String) (fs : FS) (x : ℕ) (r1 r2 : ImageResponse)
    (hresp : o.images x image_requests = [r1, r2])
    (h1 : goodResponse ImageType.Scene r1)
    (h2 : goodResponse ImageType.Segmentation r2) :
    capture_iteration o tmp_dir meshNames fs x =
      (applyWrites fs (good_iter_writes tmp_dir meshNames x r1 r2
          (o.detections x "3" ImageType.Scene)),
       [SimAction.setVehiclePose ⟨⟨(x : ℚ) + 90, -20, -30⟩, to_quaternion 0 0 0⟩ true,
        SimAction.sleep (1 / 10),
        SimAction.simPause true,
        SimAction.getImages image_requests,
        SimAction.getDetections "3" ImageType.Scene]
        ++ (good_iter_writes tmp_dir meshNames x r1 r2
            (o.detections x "3" ImageType.Scene)).map
            (fun w => SimAction.writeFile w.1 w.2)
        ++ [SimAction.simPause false],
       none) := by
  unfold capture_iteration
  rw [hresp]
  dsimp only
  rw [save_images_good fs _ tmp_dir meshNames x r1 r2 h1 h2]

theorem run_iters_good (o : SimOracle) (tmp_dir : String)
    (meshNames : List String) :
    ∀ (xs : List ℕ) (fs : FS), GoodOracle o xs →
      (run_iters o tmp_dir meshNames xs fs).2.2 = none
      ∧ (run_iters o tmp_dir meshNames xs fs).2.1.filterMap write_path =
          xs.flatMap (artifact_paths tmp_dir) := by
  intro xs
  induction xs with
  | nil => exact fun fs _ => ⟨rfl, rfl⟩
  | cons x xs ih =>
      intro fs hgood
      obtain ⟨r1, r2, hresp, h1, h2⟩ := hgood x (List.mem_cons_self x xs)
      have hstep := capture_iteration_good o tmp_dir meshNames fs x r1 r2 hresp h1 h2
      have ihs := ih (applyWrites fs (good_iter_writes tmp_dir meshNames x r1 r2
          (o.detections x "3" ImageType.Scene)))
        (fun y hy => hgood y (List.mem_cons_of_mem x hy))
      constructor
      · unfold run_iters
        rw [hstep]
        exact ihs.1
      · unfold run_iters
        rw [hstep]
        simp only [List.flatMap_cons, List.filterMap_append]
        rw [ihs.2, filterMap_write_path_map]
        rfl

/-! ## Claim C4 -/

/-- **C4.**  For every iteration count `K ≥ 0`, provided the simulator
answers each iteration's request with the two requested byte-encoded images
(Scene then Segmentation, buffers of the declared size), the capture loop
succeeds and the files it writes are exactly, for each iteration
`x = 0, 1, …, K-1` in increasing order, the four artifacts
`{x}_0_orig.jpg`, `{x}_0_seg.jpg`, `{x}_0_annot.jpg`, `{x}_0.txt`, all
sharing the stem `{x}_0` inside the fixed subdirectory `0` of the output
tree regardless of `x`. -/
theorem C4_artifact_sets (o : SimOracle) (tmp_dir : String)
    (meshNames : List String) (K : ℕ) (fs : FS)
    (hgood : ∀ x, x < K → ∃ r1 r2, o.images x image_requests = [r1, r2] ∧
      goodResponse ImageType.Scene r1 ∧ goodResponse ImageType.Segmentation r2) :
    (capture_images o tmp_dir meshNames K fs).2.2 = none
    ∧ (capture_images o tmp_dir meshNames K fs).2.1.filterMap write_path =
        (List.range K).flatMap (artifact_paths tmp_dir)
    ∧ ∀ x, artifact_paths tmp_dir x =
        [os_path_join tmp_dir "0" ++ "/" ++ (toString x ++ "_0") ++ "_orig.jpg",
         os_path_join tmp_dir "0" ++ "/" ++ (toString x ++ "_0") ++ "_seg.jpg",
         os_path_join tmp_dir "0" ++ "/" ++ (toString x ++ "_0") ++ "_annot.jpg",
         os_path_join tmp_dir "0" ++ "/" ++ (toString x ++ "_0") ++ ".txt"] := by
  have h := run_iters_good o tmp_dir meshNames (List.range K) fs
    (fun x hx => hgood x (List.mem_range.mp hx))
  exact ⟨h.1, h.2, fun x => rfl⟩

/-- A simulator oracle that always returns two good (empty-raster)
responses and no detections. -/
def goodOracle : SimOracle :=
  ⟨fun _ _ => [sceneResp, segResp], fun _ _ _ => []⟩

theorem C4_artifact_sets_witness :
    (capture_images goodOracle "t" [] 2 (fun _ => none)).2.2 = none
    ∧ (capture_images goodOracle "t" [] 2 (fun _ => none)).2.1.filterMap write_path =
        (List.range 2).flatMap (artifact_paths "t")
    ∧ ∀ x, artifact_paths "t" x =
        [os_path_join "t" "0" ++ "/" ++ (toString x ++ "_0") ++ "_orig.jpg",
         os_path_join "t" "0" ++ "/" ++ (toString x ++ "_0") ++ "_seg.jpg",
         os_path_join "t" "0" ++ "/" ++ (toString x ++ "_0") ++ "_annot.jpg",
         os_path_join "t" "0" ++ "/" ++ (toString x ++ "_0") ++ ".txt"] :=
  C4_artifact_sets goodOracle "t" [] 2 (fun _ => none)
    (fun _ _ => ⟨sceneResp, segResp, rfl, ⟨rfl, rfl, rfl⟩, ⟨rfl, rfl, rfl⟩⟩)

/-! ## Claim C6 -/

/-- **C6.**  The first action of every iteration `x` sets the vehicle pose
to position `(x + 90, -20, -30)` — x-coordinate `base_x + x` with
`base_x = 90`, y and z the constants `-20` and `-30` — with identity
orientation (`to_quaternion 0 0 0`, zero roll/pitch/yaw), and the
ignore-collision ("full teleport") flag set to `True`. -/
theorem C6_pose_progression (o : SimOracle) (tmp_dir : String)
    (meshNames : List String) (fs : FS) (x : ℕ) :
    (capture_iteration o tmp_dir meshNames fs x).2.1.head? =
      some (SimAction.setVehiclePose
        ⟨⟨(x : ℚ) + 90, -20, -30⟩, to_quaternion 0 0 0⟩ true) := rfl

/-! ## Claim C7 -/

/-- **C7.**  The action trace of every iteration is: set pose, sleep,
**pause**, then the image request and the detection request, then all of
persistence's file writes, and the **resume** comes strictly after
persistence — and only if persistence succeeded (an exception skips it).
So the pause (index 2) precedes the image request (index 3) and the
detection request (index 4), and no action at all follows the resume within
the iteration. -/
theorem C7_pause_ordering (o : SimOracle) (tmp_dir : String)
    (meshNames : List String) (fs : FS) (x : ℕ) :
    (capture_iteration o tmp_dir meshNames fs x).2.1 =
      [SimAction.setVehiclePose ⟨⟨(x : ℚ) + 90, -20, -30⟩, to_quaternion 0 0 0⟩ true,
       SimAction.sleep (1 / 10),
       SimAction.simPause true,
       SimAction.getImages image_requests,
       SimAction.getDetections "3" ImageType.Scene]
      ++ (save_images_and_annotations fs (o.images x image_requests)
          (o.detections x "3" ImageType.Scene) tmp_dir meshNames x).1.map
          (fun w => SimAction.writeFile w.1 w.2)
      ++ (match (save_images_and_annotations fs (o.images x image_requests)
            (o.detections x "3" ImageType.Scene) tmp_dir meshNames x).2 with
          | none => [SimAction.simPause false]
          | some _ => [])
    ∧ (capture_iteration o tmp_dir meshNames fs x).2.1.take 5 =
        [SimAction.setVehiclePose ⟨⟨(x : ℚ) + 90, -20, -30⟩, to_quaternion 0 0 0⟩ true,
         SimAction.sleep (1 / 10),
         SimAction.simPause true,
         SimAction.getImages image_requests,
         SimAction.getDetections "3" ImageType.Scene] :=
  ⟨rfl, rfl⟩

/-! ## Claim C5 -/

theorem seg_assign_actions_get (i : ℕ) (names : List String) :
    ∀ j n, names[j]? = some n →
      (seg_assign_actions i names)[j]? =
        some (SimAction.setSegmentationId (SegPattern.containsSub n)
          ((i + j + 1) % 256) true) := by
  induction names generalizing i with
  | nil => intro j n h; simp at h
  | cons a names ih =>
      intro j n h
      cases j with
      | zero =>
          simp only [List.getElem?_cons_zero, Option.some_inj] at h
          subst h
          simp [seg_assign_actions]
      | succ j =>
          simp only [List.getElem?_cons_succ] at h
          have harith : i + (j + 1) + 1 = (i + 1) + j + 1 := by omega
          simp only [seg_assign_actions, List.getElem?_cons_succ]
          rw [harith]
          exact ih (i + 1) j n h

theorem seg_assign_retains (o : String) :
    ∀ (names : List String) (i : ℕ) (ids : String → ℕ),
      (∀ n ∈ names, strContains o n = false) →
      List.foldl applySegAction ids (seg_assign_actions i names) o = ids o := by
  intro names
  induction names with
  | nil => intro i ids _; rfl
  | cons a names ih =>
      intro i ids h
      have ha := h a (List.mem_cons_self a names)
      simp only [seg_assign_actions, List.foldl_cons]
      rw [ih (i + 1) _ (fun n hn => h n (List.mem_cons_of_mem a hn))]
      simp [applySegAction, SegPattern.matchesName, ha]

/-- **C5.**  Segmentation labeling first resets every object's ID to 0 with
the match-all pattern and then sleeps 1 second; the assignment for the name
at 0-based index `j` uses a contains-substring pattern and ID
`(j+1) mod 256`; and an object name matching none of the configured
substrings retains ID 0 after the whole sequence (a zero-match assignment
is merely logged by the script, never an error — the action list contains
no failure handling). -/
theorem C5_segmentation_ids (object_name_list : List String) (ids0 : String → ℕ) :
    (reset_segmentation_ids object_name_list).take 2 =
      [SimAction.setSegmentationId SegPattern.matchAll 0 true, SimAction.sleep 1]
    ∧ (∀ j n, object_name_list[j]? = some n →
        (reset_segmentation_ids object_name_list)[j + 2]? =
          some (SimAction.setSegmentationId (SegPattern.containsSub n)
            ((j + 1) % 256) true))
    ∧ (∀ o, (∀ n ∈ object_name_list, strContains o n = false) →
        segIdsAfter ids0 (reset_segmentation_ids object_name_list) o = 0) := by
  refine ⟨rfl, ?_, ?_⟩
  · intro j n h
    have := seg_assign_actions_get 0 object_name_list j n h
    simp only [Nat.zero_add] at this
    simp only [reset_segmentation_ids, List.getElem?_cons_succ]
    exact this
  · intro o ho
    unfold segIdsAfter reset_segmentation_ids
    simp only [List.foldl_cons]
    rw [seg_assign_retains o object_name_list 0 _ ho]
    simp [applySegAction, SegPattern.matchesName]

theorem C5_segmentation_ids_witness :
    (reset_segmentation_ids ["Character"])[0 + 2]? =
      some (SimAction.setSegmentationId (SegPattern.containsSub "Character")
        ((0 + 1) % 256) true)
    ∧ segIdsAfter (fun _ => 7) (reset_segmentation_ids ["Character"]) "Wall_01" = 0 :=
  ⟨(C5_segmentation_ids ["Character"] (fun _ => 7)).2.1 0 "Character" rfl,
   (C5_segmentation_ids ["Character"] (fun _ => 7)).2.2 "Wall_01"
     (fun n hn => by cases List.mem_singleton.mp hn; decide)⟩

/-! ## Claim C8 -/

theorem applyWrites_good_txt (f : FS) (tmp_dir : String) (meshNames : List String)
    (x : ℕ) (r1 r2 : ImageResponse) (dets : List DetectionInfo) :
    applyWrites f (good_iter_writes tmp_dir meshNames x r1 r2 dets)
      (iter_image_file tmp_dir x ++ ".txt") =
    some (FileContent.text (labelText (computeListBoxes dets meshNames))) := by
  simp [applyWrites, good_iter_writes, fsWrite]

/-- **C8.**  If persistence for the same iteration `x` runs twice (each time
with the two requested byte images), the label file afterwards holds exactly
the text produced from the second invocation's detections: the `'w'`-mode
open fully replaces the file, nothing is appended. -/
theorem C8_label_file_overwrite (fs : FS) (tmp_dir : String)
    (meshNames : List String) (x : ℕ) (r1 r2 r1' r2' : ImageResponse)
    (dets1 dets2 : List DetectionInfo)
    (h1 : goodResponse ImageType.Scene r1)
    (h2 : goodResponse ImageType.Segmentation r2)
    (h1' : goodResponse ImageType.Scene r1')
    (h2' : goodResponse ImageType.Segmentation r2') :
    applyWrites
        (applyWrites fs
          (save_images_and_annotations fs [r1, r2] dets1 tmp_dir meshNames x).1)
        (save_images_and_annotations
          (applyWrites fs
            (save_images_and_annotations fs [r1, r2] dets1 tmp_dir meshNames x).1)
          [r1', r2'] dets2 tmp_dir meshNames x).1
        (iter_image_file tmp_dir x ++ ".txt") =
      some (FileContent.text (labelText (computeListBoxes dets2 meshNames))) := by
  rw [save_images_good fs dets1 tmp_dir meshNames x r1 r2 h1 h2]
  rw [save_images_good _ dets2 tmp_dir meshNames x r1' r2' h1' h2']
  exact applyWrites_good_txt _ tmp_dir meshNames x r1' r2' dets2

theorem C8_label_file_overwrite_witness :
    applyWrites
        (applyWrites (fun _ => none)
          (save_images_and_annotations (fun _ => none) [sceneResp, segResp]
            [exampleDet] "t" ["Character"] 0).1)
        (save_images_and_annotations
          (applyWrites (fun _ => none)
            (save_images_and_annotations (fun _ => none) [sceneResp, segResp]
              [exampleDet] "t" ["Character"] 0).1)
          [sceneResp, segResp] [] "t" ["Character"] 0).1
        (iter_image_file "t" 0 ++ ".txt") =
      some (FileContent.text (labelText (computeListBoxes [] ["Character"]))) :=
  C8_label_file_overwrite (fun _ => none) "t" ["Character"] 0
    sceneResp segResp sceneResp segResp [exampleDet] []
    ⟨rfl, rfl, rfl⟩ ⟨rfl, rfl, rfl⟩ ⟨rfl, rfl, rfl⟩ ⟨rfl, rfl, rfl⟩

/-! ## Claim C9 -/

theorem create_output_directories_spec (dirs : String → Bool) (b : String)
    (N : ℕ) (q : String) :
    create_output_directories dirs b N q = true ↔
      (∃ i, i < N ∧ q = os_path_join b (toString i)) ∨ dirs q = true := by
  induction N with
  | zero =>
      simp [create_output_directories]
  | succ n ih =>
      unfold create_output_directories at ih ⊢
      rw [List.range_succ, List.foldl_append]
      simp only [List.foldl_cons, List.foldl_nil]
      show (if q = os_path_join b (toString n) then true else _) = true ↔ _
      by_cases hq : q = os_path_join b (toString n)
      · rw [if_pos hq]
        exact ⟨fun _ => Or.inl ⟨n, Nat.lt_succ_self n, hq⟩, fun _ => rfl⟩
      · rw [if_neg hq, ih]
        constructor
        · rintro (⟨i, hi, rfl⟩ | hd)
          · exact Or.inl ⟨i, Nat.lt_succ_of_lt hi, rfl⟩
          · exact Or.inr hd
        · rintro (⟨i, hi, rfl⟩ | hd)
          · rcases Nat.lt_succ_iff_lt_or_eq.mp hi with h | h
            · exact Or.inl ⟨i, h, rfl⟩
            · subst h
              exact absurd rfl hq
          · exact Or.inr hd

/-- **C9.**  Directory preparation is idempotent: running it a second time
with the same base path and count changes nothing, and the directories
present afterwards are exactly the `N` numbered subdirectories `b/0 …
b/(N-1)` together with whatever existed before.  `os.makedirs` is called
with `exist_ok=True`, so a pre-existing directory raises no error (the
modelled operation is total). -/
theorem C9_directory_prep_idempotent (dirs : String → Bool) (b : String)
    (N : ℕ) (q : String) :
    create_output_directories (create_output_directories dirs b N) b N q =
      create_output_directories dirs b N q
    ∧ (create_output_directories dirs b N q = true ↔
        (∃ i, i < N ∧ q = os_path_join b (toString i)) ∨ dirs q = true) := by
  have A := create_output_directories_spec (create_output_directories dirs b N) b N q
  have B := create_output_directories_spec dirs b N q
  refine ⟨?_, B⟩
  cases houter : create_output_directories (create_output_directories dirs b N) b N q
    <;> cases hinner : create_output_directories dirs b N q
  · rfl
  · rw [houter] at A
    exact absurd (A.mpr (Or.inr hinner)) (by simp)
  · rw [houter] at A
    rcases A.mp rfl with hex | hin
    · rw [hinner] at B
      exact absurd (B.mpr (Or.inl hex)) (by simp)
    · rw [hinner] at hin
      exact absurd hin (by simp)
  · rfl

/-! ## Claim C10 -/

theorem image_writes_err_of_bad (stem : String) (rs : List ImageResponse)
    (r : ImageResponse) (hr : r ∈ rs) (hf : r.pixels_as_float = false)
    (hlen : r.image_data_uint8.length ≠ r.height * r.width * 3) :
    (image_writes stem rs).2 ≠ none := by
  induction rs with
  | nil => exact absurd hr (List.not_mem_nil r)
  | cons a rs ih =>
      rcases List.mem_cons.mp hr with rfl | hr'
      · have hw : response_write stem r = Except.error "cannot reshape array" := by
          unfold response_write decode_rgb
          rw [hf]
          simp [hlen]
        unfold image_writes
        rw [hw]
        simp
      · cases hw : response_write stem a with
        | ok w =>
            unfold image_writes
            rw [hw]
            exact ih hr'
        | error e =>
            unfold image_writes
            rw [hw]
            simp

/-- **C10.**  For a non-float response, the reshape-decoding step succeeds
iff the byte buffer holds exactly `height * width * 3` bytes (the error
branch is unreachable exactly under that precondition); and a response
violating it makes persistence for the whole iteration fail. -/
theorem C10_decode_precondition (r : ImageResponse)
    (hf : r.pixels_as_float = false) :
    ((decode_rgb r).isSome ↔
      r.image_data_uint8.length = r.height * r.width * 3)
    ∧ ∀ (fs : FS) (responses : List ImageResponse) (dets : List DetectionInfo)
        (tmp_dir : String) (meshNames : List String) (x : ℕ),
        r ∈ responses →
        r.image_data_uint8.length ≠ r.height * r.width * 3 →
        (save_images_and_annotations fs responses dets tmp_dir meshNames x).2 ≠
          none := by
  constructor
  · unfold decode_rgb
    by_cases h : r.image_data_uint8.length = r.height * r.width * 3
    · simp [h]
    · simp [h]
  · intro fs responses dets tmp_dir meshNames x hmem hlen
    have herr := image_writes_err_of_bad (iter_image_file tmp_dir x) responses r
      hmem hf hlen
    simp only [save_images_and_annotations]
    cases himgs : (image_writes (iter_image_file tmp_dir x) responses).2 with
    | none => exact absurd himgs herr
    | some e => simp

/-- A response with a buffer of 1 byte but declared 1×1×3 shape. -/
def badResp : ImageResponse := ⟨false, [], [0], ImageType.Scene, 1, 1⟩

theorem C10_decode_precondition_witness :
    ((decode_rgb badResp).isSome ↔
      badResp.image_data_uint8.length = badResp.height * badResp.width * 3)
    ∧ (save_images_and_annotations (fun _ => none) [badResp] [] "t" [] 0).2 ≠
        none :=
  ⟨(C10_decode_precondition badResp rfl).1,
   (C10_decode_precondition badResp rfl).2 (fun _ => none) [badResp] [] "t" [] 0
     (List.mem_singleton.mpr rfl) (by decide)⟩

end CvCapture
